import Mathlib

/-!
Shallow embedding of `skills/public/command-verification/scripts/add_command.py`:
the command-registry add operation, its JSON persistence boundary, and the
command-line entry point.  Python dictionaries holding registry entries are
modelled as association lists in insertion order (a Python `dict` preserves
insertion order and assignment of a fresh key appends); the registry JSON file
is modelled as an abstract `FileContent` that is missing, unparseable, or a
parsed `Registry`; a write attempt behaves in one of three ways fixed by the
file-system state: it succeeds, `open(path, "w")` itself raises (file
untouched), or `open` truncates the file and the subsequent `json.dump`
raises `IOError`, leaving the file truncated or partially written and hence
no longer valid JSON.  The `json` standard library is an external
collaborator: `json.loads` of the `--json` payload is an oracle parameter, and
a file that `json.load` accepts is exactly a `FileContent.valid`.
-/

set_option autoImplicit false

namespace AddCommand

/-- Risk sub-object of a registry entry: the `"risk"` dict of a command. -/
structure Risk where
  level : String
  color : String
  reason : String
deriving DecidableEq, Repr

/-- One registry entry, as built by `add_command` (the `command_entry` dict). -/
structure CommandEntry where
  name : String
  description : String
  permission : String
  risk : Risk
deriving DecidableEq, Repr

/-- The registry JSON object: top-level `"version"` and `"description"`
strings and an optional `"commands"` mapping (the code tolerates a registry
dict with no `"commands"` key, hence the `Option`).  The mapping is an
association list in insertion order. -/
structure Registry where
  version : String
  description : String
  commands : Option (List (String × CommandEntry))
deriving DecidableEq, Repr

/-- State of the registry file on disk: absent, present but not valid JSON,
or valid JSON parsing to a `Registry`. -/
inductive FileContent where
  | missing
  | invalid
  | valid (r : Registry)
deriving DecidableEq, Repr

/-- How one attempt to write the registry file behaves, at the granularity
of the two operations inside `save_registry` that can raise `IOError`:
`open(path, "w")` itself (file untouched), or the `json.dump` into the
already-truncated file (file left truncated or partially written, which is
not valid JSON). -/
inductive SaveBehavior where
  | ok
  | openFails
  | dumpFails
deriving DecidableEq, Repr

/-- File-system state seen by one call: the registry file's content and how
a write attempt behaves (the `IOError` handler of `save_registry` fires on
both failure modes). -/
structure FS where
  file : FileContent
  save : SaveBehavior
deriving DecidableEq, Repr

/-- Outcome of `save_registry`: its boolean return value, the registry file
afterwards, and how many times the file was opened for writing. -/
structure SaveResult where
  ok : Bool
  file : FileContent
  writes : Nat
deriving DecidableEq, Repr

/-- Result dict returned by `add_command`; keys that a branch does not set
are `none`. -/
structure AddResult where
  success : Bool
  error : Option String := none
  existing : Option CommandEntry := none
  command : Option CommandEntry := none
  message : Option String := none
deriving DecidableEq, Repr

/-- Outcome of one `add_command` call: the returned result, the registry
file afterwards, and how many times the call read and wrote the file. -/
structure AddOutcome where
  result : AddResult
  file : FileContent
  reads : Nat
  writes : Nat
deriving DecidableEq, Repr

/-- The `RISK_COLORS` module constant. -/
def RISK_COLORS : List (String × String) :=
  [("low", "green"), ("medium", "yellow"), ("high", "red"), ("critical", "red")]

/-- Python `RISK_COLORS.get(level, "yellow")`. -/
def riskColorsGet (level : String) : String :=
  ((RISK_COLORS.find? (fun p => p.1 == level)).map Prod.snd).getD "yellow"

/-- Python `d[k]` lookup on a commands dict, as `Option`. -/
def lookupCmd (cs : List (String × CommandEntry)) (k : String) : Option CommandEntry :=
  (cs.find? (fun p => p.1 == k)).map Prod.snd

/-- Python `d[k] = v` on a commands dict: overwrite in place if the key is
present, else append (insertion order of a Python dict). -/
def insertCmd (cs : List (String × CommandEntry)) (k : String) (v : CommandEntry) :
    List (String × CommandEntry) :=
  if cs.any (fun p => p.1 == k) then
    cs.map (fun p => if p.1 == k then (k, v) else p)
  else
    cs ++ [(k, v)]

/-- Default registry returned by `load_registry` when the file is missing or
malformed. -/
def defaultRegistry : Registry :=
  { version := "1.0.0"
    description := "Registry of known commands"
    commands := some [] }

/-- The `load_registry` function: parse the file, recovering from
`FileNotFoundError` and `json.JSONDecodeError` with the default registry. -/
def load_registry (file : FileContent) : Registry :=
  match file with
  | .valid r => r
  | .missing => defaultRegistry
  | .invalid => defaultRegistry

/-- The `save_registry` function: open the registry file in mode `"w"`
(which truncates it) and `json.dump` the registry into it, catching
`IOError` and reporting `False`.  When `open` itself fails the file is
unchanged; when the dump fails after the truncating open, the file is left
truncated or partially written, which is not valid JSON. -/
def save_registry (save : SaveBehavior) (r : Registry) (file : FileContent) :
    SaveResult :=
  match save with
  | .ok => { ok := true, file := .valid r, writes := 1 }
  | .openFails => { ok := false, file := file, writes := 0 }
  | .dumpFails => { ok := false, file := .invalid, writes := 1 }

/-- The `command_entry` dict literal built inside `add_command`. -/
def mkEntry (name description permission risk_level risk_reason : String) :
    CommandEntry :=
  { name := name
    description := description
    permission := permission
    risk :=
      { level := risk_level
        color := riskColorsGet risk_level
        reason := risk_reason } }

/-- The `add_command` function: validate the permission and risk-level
enums, load the registry, reject a duplicate name, insert the new entry and
save.  Reads and writes of the registry file are counted. -/
def add_command (name description permission risk_level risk_reason : String)
    (fs : FS) : AddOutcome :=
  if permission ∉ (["AlwaysAllow", "AlwaysAsk"] : List String) then
    { result :=
        { success := false
          error := some ("Invalid permission: " ++ permission ++
            ". Must be \x27AlwaysAllow\x27 or \x27AlwaysAsk\x27") }
      file := fs.file, reads := 0, writes := 0 }
  else if risk_level ∉ (["low", "medium", "high", "critical"] : List String) then
    { result :=
        { success := false
          error := some ("Invalid risk level: " ++ risk_level ++
            ". Must be \x27low\x27, \x27medium\x27, \x27high\x27, or \x27critical\x27") }
      file := fs.file, reads := 0, writes := 0 }
  else
    let registry := load_registry fs.file
    let cmds := registry.commands.getD []
    match lookupCmd cmds name with
    | some ex =>
      { result :=
          { success := false
            error := some ("Command \x27" ++ name ++ "\x27 already exists in the registry")
            existing := some ex }
        file := fs.file, reads := 1, writes := 0 }
    | none =>
      let entry := mkEntry name description permission risk_level risk_reason
      let registry' : Registry := { registry with commands := some (insertCmd cmds name entry) }
      let sres := save_registry fs.save registry' fs.file
      if sres.ok then
        { result :=
            { success := true
              command := some entry
              message := some ("Successfully added \x27" ++ name ++ "\x27 to the registry") }
          file := sres.file, reads := 1, writes := sres.writes }
      else
        { result :=
            { success := false
              error := some "Failed to save registry" }
          file := sres.file, reads := 1, writes := sres.writes }

/-- One `print(...)` emitted by the entry point, abstracted: the module doc
string, the fixed error lines, a JSON-dumped result, or interactive-mode
text. -/
inductive OutputItem where
  | usageDoc
  | errMissingJson
  | errParsingJson
  | errMissingArgs
  | usageLine
  | resultJson (r : AddResult)
  | text (s : String)
deriving DecidableEq, Repr

/-- Observable outcome of one `main()` run: the process exit code (0 when
`main` returns normally), the prints in order, and the registry file
afterwards. -/
structure MainResult where
  exitCode : Nat
  output : List OutputItem
  file : FileContent
deriving DecidableEq, Repr

/-- The nested `"risk"` object of a `--json` payload; each key may be
absent. -/
structure RiskJson where
  level : Option String := none
  reason : Option String := none
deriving DecidableEq, Repr

/-- A parsed `--json` payload: each key the code looks up may be absent.
A `"risk"` value, when present, is assumed dict-shaped (the code calls
`.get` on it without checking). -/
structure JsonData where
  name : Option String := none
  description : Option String := none
  permission : Option String := none
  risk_level : Option String := none
  risk_reason : Option String := none
  risk : Option RiskJson := none
deriving DecidableEq, Repr

/-- Result of `json.loads` on the `--json` argument: a parse failure or a
parsed payload. -/
inductive JsonArg where
  | invalid
  | valid (d : JsonData)
deriving DecidableEq, Repr

/-- The five lines interactive mode may read from standard input, in the
order `input()` is called; an early return leaves later lines unread. -/
structure Stdin where
  l1 : String
  l2 : String
  l3 : String
  l4 : String
  l5 : String
deriving DecidableEq, Repr

/-- The `risk_map` dict of `interactive_add`. -/
def risk_map : List (String × String) :=
  [("1", "low"), ("2", "medium"), ("3", "high"), ("4", "critical")]

/-- Python `risk_map.get(choice, "medium")`. -/
def riskMapGet (choice : String) : String :=
  ((risk_map.find? (fun p => p.1 == choice)).map Prod.snd).getD "medium"

/-- The `interactive_add` function: prompt for the five fields, defaulting
permission to `AlwaysAsk`, risk level through `risk_map`, and the reason to
`No reason provided`, then call `add_command` and report. -/
def interactive_add (inp : Stdin) (fs : FS) : List OutputItem × FileContent :=
  let header : List OutputItem :=
    [.text "Add New Command to Registry",
     .text (String.mk (List.replicate 40 '=')),
     .text ""]
  let name := inp.l1.trim
  if name = "" then
    (header ++ [.text "Error: Command name is required"], fs.file)
  else
    let description := inp.l2.trim
    if description = "" then
      (header ++ [.text "Error: Description is required"], fs.file)
    else
      let permission := if inp.l3.trim = "1" then "AlwaysAllow" else "AlwaysAsk"
      let risk_level := riskMapGet inp.l4.trim
      let risk_reason := if inp.l5.trim = "" then "No reason provided" else inp.l5.trim
      let out := add_command name description permission risk_level risk_reason fs
      if out.result.success then
        (header ++ [.text "", .text ("Success: " ++ out.result.message.getD "")], out.file)
      else
        (header ++ [.text "", .text ("Error: " ++ out.result.error.getD "")], out.file)

/-- Python `data.get("risk_level", data.get("risk", \x7b\x7d).get("level", "medium"))`. -/
def jsonRiskLevel (d : JsonData) : String :=
  d.risk_level.getD (((d.risk.getD { level := none, reason := none }).level).getD "medium")

/-- Python `data.get("risk_reason", data.get("risk", \x7b\x7d).get("reason", "No reason provided"))`. -/
def jsonRiskReason (d : JsonData) : String :=
  d.risk_reason.getD (((d.risk.getD { level := none, reason := none }).reason).getD "No reason provided")

/-- The `main` function over `sys.argv` (index 0 is the script name).
`jparse` is the external `json.loads`; `inp` feeds interactive mode.
`sys.exit(1)` is exit code 1; falling off the end is exit code 0. -/
def pymain (jparse : String → JsonArg) (argv : List String) (inp : Stdin)
    (fs : FS) : MainResult :=
  if argv.length < 2 then
    { exitCode := 1, output := [.usageDoc], file := fs.file }
  else if argv.getD 1 "" = "--interactive" then
    let (out, f) := interactive_add inp fs
    { exitCode := 0, output := out, file := f }
  else if argv.getD 1 "" = "--json" then
    if argv.length < 3 then
      { exitCode := 1, output := [.errMissingJson], file := fs.file }
    else
      match jparse (argv.getD 2 "") with
      | .invalid => { exitCode := 1, output := [.errParsingJson], file := fs.file }
      | .valid d =>
        match d.name, d.description, d.permission with
        | some n, some ds, some p =>
          let out := add_command n ds p (jsonRiskLevel d) (jsonRiskReason d) fs
          { exitCode := 0, output := [.resultJson out.result], file := out.file }
        | _, _, _ => { exitCode := 1, output := [.errParsingJson], file := fs.file }
  else if argv.length < 6 then
    { exitCode := 1, output := [.errMissingArgs, .usageLine], file := fs.file }
  else
    let out := add_command (argv.getD 1 "") (argv.getD 2 "") (argv.getD 3 "")
      (argv.getD 4 "") (argv.getD 5 "") fs
    { exitCode := 0, output := [.resultJson out.result], file := out.file }

/-! Concrete fixtures used to exercise the definitions. -/

/-- A registry entry for `ls`. -/
def entry0 : CommandEntry := mkEntry "ls" "List directory contents" "AlwaysAllow" "low" "Read-only"

/-- A registry entry for `git`. -/
def entryGit : CommandEntry := mkEntry "git" "Version control" "AlwaysAsk" "medium" "Can modify files"

/-- A populated registry holding `ls` and `git`. -/
def reg0 : Registry :=
  { version := "1.0.0"
    description := "Registry of known commands"
    commands := some [("ls", entry0), ("git", entryGit)] }

/-- File system with the populated registry on disk and writable file. -/
def fsReg : FS := { file := .valid reg0, save := .ok }

/-- File system with no registry file and writable file. -/
def fsEmpty : FS := { file := .missing, save := .ok }

/-- File system whose registry file cannot be opened for writing. -/
def fsNoSave : FS := { file := .valid reg0, save := .openFails }

/-- File system where `open(path, "w")` truncates the registry file and the
subsequent `json.dump` raises `IOError`. -/
def fsDump : FS := { file := .valid reg0, save := .dumpFails }

/-- A complete `--json` payload using the nested risk object. -/
def d0 : JsonData :=
  { name := some "curl"
    description := some "Transfer data"
    permission := some "AlwaysAsk"
    risk := some { level := some "high", reason := some "Network access" } }

/-- A `--json` payload missing the `"name"` key. -/
def dMissing : JsonData := { description := some "x", permission := some "AlwaysAsk" }

/-- A concrete `json.loads` oracle for the fixtures. -/
def jparse0 : String → JsonArg := fun s =>
  if s = "ok" then .valid d0 else if s = "missing" then .valid dMissing else .invalid

/-- Fixed interactive input (unused by the non-interactive paths). -/
def inp0 : Stdin := ⟨"", "", "", "", ""⟩

/-! Helper lemmas about the commands mapping. -/

/-- Looking a key up fails exactly when no pair carries that key. -/
lemma lookupCmd_eq_none_iff (cs : List (String × CommandEntry)) (k : String) :
    lookupCmd cs k = none ↔ cs.any (fun p => p.1 == k) = false := by
  simp [lookupCmd, List.find?_eq_none, List.any_eq_false]

/-- Inserting a fresh key appends the pair. -/
lemma insertCmd_of_not_mem (cs : List (String × CommandEntry)) (k : String)
    (v : CommandEntry) (h : lookupCmd cs k = none) :
    insertCmd cs k v = cs ++ [(k, v)] := by
  rw [lookupCmd_eq_none_iff] at h
  simp [insertCmd, h]

/-- After inserting a fresh key, looking that key up finds the new value. -/
lemma lookupCmd_insert_self (cs : List (String × CommandEntry)) (k : String)
    (v : CommandEntry) (h : lookupCmd cs k = none) :
    lookupCmd (insertCmd cs k v) k = some v := by
  rw [insertCmd_of_not_mem cs k v h]
  unfold lookupCmd at h ⊢
  rw [List.find?_append]
  rcases h' : (cs.find? fun p => p.1 == k) with _ | p
  · rw [h']
    simp [List.find?]
  · rw [h'] at h
    simp at h

/-- After inserting a fresh key, every other key resolves as before. -/
lemma lookupCmd_insert_other (cs : List (String × CommandEntry)) (k : String)
    (v : CommandEntry) (h : lookupCmd cs k = none) (k' : String) (hne : k' ≠ k) :
    lookupCmd (insertCmd cs k v) k' = lookupCmd cs k' := by
  rw [insertCmd_of_not_mem cs k v h]
  unfold lookupCmd
  rw [List.find?_append]
  have hbeq : (k == k') = false := beq_eq_false_iff_ne.mpr (Ne.symm hne)
  have hsingle : (([(k, v)] : List (String × CommandEntry)).find? fun p => p.1 == k') = none := by
    simp [List.find?, hbeq]
  rw [hsingle]
  rcases h' : (cs.find? fun p => p.1 == k') with _ | p <;> simp

/-- A string starting with a nonempty literal is nonempty. -/
lemma append_ne_empty_left (s t : String) (h : s ≠ "") : s ++ t ≠ "" := by
  intro contra
  apply h
  have hlen := congrArg String.length contra
  rw [String.length_append] at hlen
  have h0 : ("" : String).length = 0 := rfl
  rw [h0] at hlen
  have hs : s.length = 0 := by omega
  cases s with
  | mk data =>
    simp [String.length] at hs
    simp [hs]

/-! Claim theorems. -/

/-- C5: for a registry file that is missing or whose contents are not valid
JSON, `load_registry` returns (without error) the default registry, whose
commands mapping is empty. -/
theorem load_registry_missing_or_invalid (f : FileContent)
    (h : f = FileContent.missing ∨ f = FileContent.invalid) :
    load_registry f = defaultRegistry ∧ (load_registry f).commands = some [] := by
  rcases h with h | h <;> subst h <;> exact ⟨rfl, rfl⟩

/-- Witness for C5 at the missing-file input. -/
theorem load_registry_missing_or_invalid_witness :
    load_registry FileContent.missing = defaultRegistry ∧
      (load_registry FileContent.missing).commands = some [] :=
  load_registry_missing_or_invalid FileContent.missing (Or.inl rfl)

/-- C2: an invalid permission or risk-level enum makes `add_command` return
failure with a non-empty error message, and the registry file is neither
read nor written by the call. -/
theorem add_command_invalid_enum
    (name description permission risk_level risk_reason : String) (fs : FS)
    (h : permission ∉ (["AlwaysAllow", "AlwaysAsk"] : List String) ∨
      risk_level ∉ (["low", "medium", "high", "critical"] : List String)) :
    (add_command name description permission risk_level risk_reason fs).result.success = false ∧
    (∃ msg, (add_command name description permission risk_level risk_reason fs).result.error =
        some msg ∧ msg ≠ "") ∧
    (add_command name description permission risk_level risk_reason fs).reads = 0 ∧
    (add_command name description permission risk_level risk_reason fs).writes = 0 := by
  unfold add_command
  by_cases hp : permission ∉ (["AlwaysAllow", "AlwaysAsk"] : List String)
  · rw [if_pos hp]
    refine ⟨rfl, ⟨_, rfl, ?_⟩, rfl, rfl⟩
    exact append_ne_empty_left _ _ (append_ne_empty_left _ _ (by decide))
  · have hr : risk_level ∉ (["low", "medium", "high", "critical"] : List String) :=
      h.resolve_left hp
    rw [if_neg hp, if_pos hr]
    refine ⟨rfl, ⟨_, rfl, ?_⟩, rfl, rfl⟩
    exact append_ne_empty_left _ _ (append_ne_empty_left _ _ (by decide))

/-- Witness for C2 at a concrete invalid permission. -/
theorem add_command_invalid_enum_witness :
    (add_command "x" "d" "Sometimes" "low" "r" fsEmpty).result.success = false ∧
    (∃ msg, (add_command "x" "d" "Sometimes" "low" "r" fsEmpty).result.error =
        some msg ∧ msg ≠ "") ∧
    (add_command "x" "d" "Sometimes" "low" "r" fsEmpty).reads = 0 ∧
    (add_command "x" "d" "Sometimes" "low" "r" fsEmpty).writes = 0 :=
  add_command_invalid_enum "x" "d" "Sometimes" "low" "r" fsEmpty (Or.inl (by decide))

/-- C4 counterexample: when `open(path, "w")` truncates the registry file
and `json.dump` then raises `IOError`, the call returns the saving-failure
result while the file has changed — it is left truncated (no longer valid
JSON), so a failed add can be partially applied and the claim as stated is
false. -/
theorem add_command_save_failure_cex :
    (add_command "curl" "d" "AlwaysAsk" "low" "r" fsDump).result.success = false ∧
    (add_command "curl" "d" "AlwaysAsk" "low" "r" fsDump).result.error =
      some "Failed to save registry" ∧
    (add_command "curl" "d" "AlwaysAsk" "low" "r" fsDump).file = FileContent.invalid ∧
    fsDump.file ≠ FileContent.invalid :=
  ⟨rfl, rfl, rfl, by decide⟩

/-- C4 (amended): whenever `add_command` returns a failure result, the
registry file afterwards is exactly what it was before the call, except
when the failure happened inside `json.dump` after the truncating
`open(path, "w")`: failures from an invalid permission, an invalid risk
level, a duplicate name, or a failed open all leave the file unchanged. -/
theorem add_command_failure_preserves_file
    (name description permission risk_level risk_reason : String) (fs : FS)
    (h : (add_command name description permission risk_level risk_reason fs).result.success =
      false)
    (hsave : fs.save ≠ SaveBehavior.dumpFails) :
    (add_command name description permission risk_level risk_reason fs).file = fs.file := by
  unfold add_command at h ⊢
  by_cases hp : permission ∉ (["AlwaysAllow", "AlwaysAsk"] : List String)
  · rw [if_pos hp]
  · rw [if_neg hp] at h ⊢
    by_cases hr : risk_level ∉ (["low", "medium", "high", "critical"] : List String)
    · rw [if_pos hr]
    · rw [if_neg hr] at h ⊢
      cases hl : lookupCmd ((load_registry fs.file).commands.getD []) name with
      | some ex => simp only [hl]
      | none =>
        simp only [hl] at h ⊢
        cases hsv : fs.save with
        | ok => rw [hsv] at h; simp [save_registry] at h
        | openFails => simp [save_registry]
        | dumpFails => exact absurd hsv hsave

/-- Witness for the amended C4 at a duplicate-name failure. -/
theorem add_command_failure_preserves_file_witness :
    (add_command "ls" "d" "AlwaysAllow" "low" "r" fsReg).file = fsReg.file :=
  add_command_failure_preserves_file "ls" "d" "AlwaysAllow" "low" "r" fsReg
    (by decide) (by decide)

/-- C1: a valid, fresh add whose save succeeds returns success carrying the
newly created entry, and the persisted registry maps the name to exactly
that entry. -/
theorem add_command_success_persists
    (name description permission risk_level risk_reason : String) (fs : FS)
    (hp : permission ∈ (["AlwaysAllow", "AlwaysAsk"] : List String))
    (hr : risk_level ∈ (["low", "medium", "high", "critical"] : List String))
    (hn : lookupCmd ((load_registry fs.file).commands.getD []) name = none)
    (hs : fs.save = SaveBehavior.ok) :
    (add_command name description permission risk_level risk_reason fs).result.success = true ∧
    (add_command name description permission risk_level risk_reason fs).result.command =
      some (mkEntry name description permission risk_level risk_reason) ∧
    ∃ r', (add_command name description permission risk_level risk_reason fs).file =
        FileContent.valid r' ∧
      lookupCmd (r'.commands.getD []) name =
        some (mkEntry name description permission risk_level risk_reason) := by
  unfold add_command
  rw [if_neg (not_not_intro hp), if_neg (not_not_intro hr)]
  simp only [hn, hs, save_registry, if_true]
  refine ⟨trivial, trivial, _, rfl, ?_⟩
  simp only [Option.getD_some]
  exact lookupCmd_insert_self _ name _ hn

/-- Witness for C1: adding `curl` to the populated registry. -/
theorem add_command_success_persists_witness :
    (add_command "curl" "Transfer data" "AlwaysAsk" "high" "Network access" fsReg).result.success =
      true ∧
    (add_command "curl" "Transfer data" "AlwaysAsk" "high" "Network access" fsReg).result.command =
      some (mkEntry "curl" "Transfer data" "AlwaysAsk" "high" "Network access") ∧
    ∃ r', (add_command "curl" "Transfer data" "AlwaysAsk" "high" "Network access" fsReg).file =
        FileContent.valid r' ∧
      lookupCmd (r'.commands.getD []) "curl" =
        some (mkEntry "curl" "Transfer data" "AlwaysAsk" "high" "Network access") :=
  add_command_success_persists "curl" "Transfer data" "AlwaysAsk" "high" "Network access" fsReg
    (by decide) (by decide) (by decide) rfl

/-- C3 counterexample: with a duplicate name but an invalid permission the
call still fails, yet the result does not include the already-existing
entry — the permission check fires before the duplicate check, so the claim
as stated (for every call with a duplicate name) is false. -/
theorem add_command_duplicate_cex :
    lookupCmd ((load_registry fsReg.file).commands.getD []) "ls" = some entry0 ∧
    (add_command "ls" "d" "Sometimes" "low" "r" fsReg).result.success = false ∧
    (add_command "ls" "d" "Sometimes" "low" "r" fsReg).result.existing = none :=
  ⟨rfl, rfl, rfl⟩

/-- C3 (amended): for a call whose permission and risk level pass the enum
checks and whose name is already a key of the loaded registry, the result is
a failure carrying the existing entry, and the registry file is neither
written nor changed. -/
theorem add_command_duplicate_rejected
    (name description permission risk_level risk_reason : String) (fs : FS)
    (ex : CommandEntry)
    (hp : permission ∈ (["AlwaysAllow", "AlwaysAsk"] : List String))
    (hr : risk_level ∈ (["low", "medium", "high", "critical"] : List String))
    (hd : lookupCmd ((load_registry fs.file).commands.getD []) name = some ex) :
    (add_command name description permission risk_level risk_reason fs).result.success = false ∧
    (add_command name description permission risk_level risk_reason fs).result.existing =
      some ex ∧
    (add_command name description permission risk_level risk_reason fs).writes = 0 ∧
    (add_command name description permission risk_level risk_reason fs).file = fs.file := by
  unfold add_command
  rw [if_neg (not_not_intro hp), if_neg (not_not_intro hr)]
  simp only [hd]
  simp

/-- Witness for the amended C3: re-adding `ls` to the populated registry. -/
theorem add_command_duplicate_rejected_witness :
    (add_command "ls" "other" "AlwaysAsk" "low" "r" fsReg).result.success = false ∧
    (add_command "ls" "other" "AlwaysAsk" "low" "r" fsReg).result.existing = some entry0 ∧
    (add_command "ls" "other" "AlwaysAsk" "low" "r" fsReg).writes = 0 ∧
    (add_command "ls" "other" "AlwaysAsk" "low" "r" fsReg).file = fsReg.file :=
  add_command_duplicate_rejected "ls" "other" "AlwaysAsk" "low" "r" fsReg entry0
    (by decide) (by decide) rfl

/-- C6: every entry `add_command` hands back as its created command is
well-formed: validated permission and risk-level enums, and the given
name, description and risk reason. -/
theorem add_command_entry_wellformed
    (name description permission risk_level risk_reason : String) (fs : FS)
    (e : CommandEntry)
    (h : (add_command name description permission risk_level risk_reason fs).result.command =
      some e) :
    e.permission ∈ (["AlwaysAllow", "AlwaysAsk"] : List String) ∧
    e.risk.level ∈ (["low", "medium", "high", "critical"] : List String) ∧
    e.name = name ∧ e.description = description ∧ e.risk.reason = risk_reason := by
  unfold add_command at h
  by_cases hp : permission ∉ (["AlwaysAllow", "AlwaysAsk"] : List String)
  · rw [if_pos hp] at h; simp at h
  · rw [if_neg hp] at h
    by_cases hr : risk_level ∉ (["low", "medium", "high", "critical"] : List String)
    · rw [if_pos hr] at h; simp at h
    · rw [if_neg hr] at h
      cases hl : lookupCmd ((load_registry fs.file).commands.getD []) name with
      | some ex => simp only [hl] at h; simp at h
      | none =>
        simp only [hl] at h
        cases hsv : fs.save with
        | ok =>
          rw [hsv] at h
          simp [save_registry] at h
          subst h
          exact ⟨not_not.mp hp, not_not.mp hr, rfl, rfl, rfl⟩
        | openFails => rw [hsv] at h; simp [save_registry] at h
        | dumpFails => rw [hsv] at h; simp [save_registry] at h

/-- Witness for C6 on a fresh successful add. -/
theorem add_command_entry_wellformed_witness :
    (mkEntry "curl" "Transfer data" "AlwaysAsk" "high" "Network access").permission ∈
      (["AlwaysAllow", "AlwaysAsk"] : List String) ∧
    (mkEntry "curl" "Transfer data" "AlwaysAsk" "high" "Network access").risk.level ∈
      (["low", "medium", "high", "critical"] : List String) ∧
    (mkEntry "curl" "Transfer data" "AlwaysAsk" "high" "Network access").name = "curl" ∧
    (mkEntry "curl" "Transfer data" "AlwaysAsk" "high" "Network access").description =
      "Transfer data" ∧
    (mkEntry "curl" "Transfer data" "AlwaysAsk" "high" "Network access").risk.reason =
      "Network access" :=
  add_command_entry_wellformed "curl" "Transfer data" "AlwaysAsk" "high" "Network access" fsReg
    (mkEntry "curl" "Transfer data" "AlwaysAsk" "high" "Network access") rfl

/-- C8: a successful add persists a registry that differs from the loaded
one only at the added name: version, description and every other command
key are unchanged, and the added name maps to the created entry. -/
theorem add_command_success_frame
    (name description permission risk_level risk_reason : String) (fs : FS)
    (h : (add_command name description permission risk_level risk_reason fs).result.success =
      true) :
    ∃ r', (add_command name description permission risk_level risk_reason fs).file =
        FileContent.valid r' ∧
      r'.version = (load_registry fs.file).version ∧
      r'.description = (load_registry fs.file).description ∧
      lookupCmd (r'.commands.getD []) name =
        some (mkEntry name description permission risk_level risk_reason) ∧
      ∀ k, k ≠ name →
        lookupCmd (r'.commands.getD []) k =
          lookupCmd ((load_registry fs.file).commands.getD []) k := by
  unfold add_command at h ⊢
  by_cases hp : permission ∉ (["AlwaysAllow", "AlwaysAsk"] : List String)
  · rw [if_pos hp] at h; simp at h
  · rw [if_neg hp] at h ⊢
    by_cases hr : risk_level ∉ (["low", "medium", "high", "critical"] : List String)
    · rw [if_pos hr] at h; simp at h
    · rw [if_neg hr] at h ⊢
      cases hl : lookupCmd ((load_registry fs.file).commands.getD []) name with
      | some ex => simp only [hl] at h; simp at h
      | none =>
        simp only [hl] at h ⊢
        cases hsv : fs.save with
        | openFails => rw [hsv] at h; simp [save_registry] at h
        | dumpFails => rw [hsv] at h; simp [save_registry] at h
        | ok =>
          simp only [save_registry, if_true]
          refine ⟨_, rfl, rfl, rfl, ?_, ?_⟩
          · exact lookupCmd_insert_self _ name _ hl
          · intro k hk
            exact lookupCmd_insert_other _ name _ hl k hk

/-- Witness for C8: adding `curl` beside `ls` and `git`. -/
theorem add_command_success_frame_witness :
    ∃ r', (add_command "curl" "Transfer data" "AlwaysAsk" "high" "Net" fsReg).file =
        FileContent.valid r' ∧
      r'.version = (load_registry fsReg.file).version ∧
      r'.description = (load_registry fsReg.file).description ∧
      lookupCmd (r'.commands.getD []) "curl" =
        some (mkEntry "curl" "Transfer data" "AlwaysAsk" "high" "Net") ∧
      ∀ k, k ≠ "curl" →
        lookupCmd (r'.commands.getD []) k =
          lookupCmd ((load_registry fsReg.file).commands.getD []) k :=
  add_command_success_frame "curl" "Transfer data" "AlwaysAsk" "high" "Net" fsReg rfl

/-- C9: a created entry's color is the fixed function of its level, and the
`RISK_COLORS` mapping sends low to green, medium to yellow, and both high
and critical to red. -/
theorem add_command_risk_color
    (name description permission risk_level risk_reason : String) (fs : FS)
    (e : CommandEntry)
    (h : (add_command name description permission risk_level risk_reason fs).result.command =
      some e) :
    e.risk.color = riskColorsGet e.risk.level ∧
    riskColorsGet "low" = "green" ∧ riskColorsGet "medium" = "yellow" ∧
    riskColorsGet "high" = "red" ∧ riskColorsGet "critical" = "red" := by
  unfold add_command at h
  by_cases hp : permission ∉ (["AlwaysAllow", "AlwaysAsk"] : List String)
  · rw [if_pos hp] at h; simp at h
  · rw [if_neg hp] at h
    by_cases hr : risk_level ∉ (["low", "medium", "high", "critical"] : List String)
    · rw [if_pos hr] at h; simp at h
    · rw [if_neg hr] at h
      cases hl : lookupCmd ((load_registry fs.file).commands.getD []) name with
      | some ex => simp only [hl] at h; simp at h
      | none =>
        simp only [hl] at h
        cases hsv : fs.save with
        | ok =>
          rw [hsv] at h
          simp [save_registry] at h
          subst h
          exact ⟨rfl, rfl, rfl, rfl, rfl⟩
        | openFails => rw [hsv] at h; simp [save_registry] at h
        | dumpFails => rw [hsv] at h; simp [save_registry] at h

/-- Witness for C9 on a critical-risk add. -/
theorem add_command_risk_color_witness :
    (mkEntry "rm" "Remove files" "AlwaysAsk" "critical" "Destructive").risk.color =
      riskColorsGet (mkEntry "rm" "Remove files" "AlwaysAsk" "critical" "Destructive").risk.level ∧
    riskColorsGet "low" = "green" ∧ riskColorsGet "medium" = "yellow" ∧
    riskColorsGet "high" = "red" ∧ riskColorsGet "critical" = "red" :=
  add_command_risk_color "rm" "Remove files" "AlwaysAsk" "critical" "Destructive" fsEmpty
    (mkEntry "rm" "Remove files" "AlwaysAsk" "critical" "Destructive") rfl

/-- C7: invoking `main` with no arguments, with `--json` but no payload, or
with one to four positional arguments prints a usage or error message,
exits with code 1, and leaves the registry file unmodified. -/
theorem pymain_missing_args (jparse : String → JsonArg) (argv : List String)
    (inp : Stdin) (fs : FS)
    (h : argv.length ≤ 1 ∨
      (argv.length = 2 ∧ argv.getD 1 "" = "--json") ∨
      (2 ≤ argv.length ∧ argv.length ≤ 5 ∧ argv.getD 1 "" ≠ "--json" ∧
        argv.getD 1 "" ≠ "--interactive")) :
    (pymain jparse argv inp fs).exitCode = 1 ∧
    (pymain jparse argv inp fs).output ≠ [] ∧
    (pymain jparse argv inp fs).file = fs.file := by
  unfold pymain
  rcases h with h | ⟨h2, hj⟩ | ⟨hge, hle, hnj, hni⟩
  · rw [if_pos (by omega)]
    exact ⟨rfl, by simp, rfl⟩
  · rw [if_neg (by omega), hj, if_neg (by decide), if_pos rfl, if_pos (by omega)]
    exact ⟨rfl, by simp, rfl⟩
  · rw [if_neg (by omega), if_neg hni, if_neg hnj, if_pos (by omega)]
    exact ⟨rfl, by simp, rfl⟩

/-- Witness for C7 at the bare invocation. -/
theorem pymain_missing_args_witness :
    (pymain jparse0 ["add_command.py"] inp0 fsReg).exitCode = 1 ∧
    (pymain jparse0 ["add_command.py"] inp0 fsReg).output ≠ [] ∧
    (pymain jparse0 ["add_command.py"] inp0 fsReg).file = fsReg.file :=
  pymain_missing_args jparse0 ["add_command.py"] inp0 fsReg (Or.inl (by decide))

/-- C10: in `--json` mode a payload carrying name, description and
permission is added with the risk level taken from `"risk_level"`, else the
nested `"risk"."level"`, else `"medium"`, and likewise the reason defaults
to `"No reason provided"`; a payload that fails to parse or misses one of
the three required keys prints an error and exits with code 1 instead of
returning a structured failure result. -/
theorem pymain_json_mode (jparse : String → JsonArg) (s : String) (inp : Stdin)
    (fs : FS) :
    (∀ d n ds p, jparse s = JsonArg.valid d → d.name = some n →
      d.description = some ds → d.permission = some p →
      pymain jparse ["add_command.py", "--json", s] inp fs =
        { exitCode := 0
          output := [OutputItem.resultJson (add_command n ds p
            (d.risk_level.getD
              (((d.risk.getD { level := none, reason := none }).level).getD "medium"))
            (d.risk_reason.getD
              (((d.risk.getD { level := none, reason := none }).reason).getD "No reason provided"))
            fs).result]
          file := (add_command n ds p
            (d.risk_level.getD
              (((d.risk.getD { level := none, reason := none }).level).getD "medium"))
            (d.risk_reason.getD
              (((d.risk.getD { level := none, reason := none }).reason).getD "No reason provided"))
            fs).file }) ∧
    (∀ d, jparse s = JsonArg.valid d →
      (d.name = none ∨ d.description = none ∨ d.permission = none) →
      pymain jparse ["add_command.py", "--json", s] inp fs =
        { exitCode := 1, output := [OutputItem.errParsingJson], file := fs.file }) ∧
    (jparse s = JsonArg.invalid →
      pymain jparse ["add_command.py", "--json", s] inp fs =
        { exitCode := 1, output := [OutputItem.errParsingJson], file := fs.file }) := by
  refine ⟨?_, ?_, ?_⟩
  · intro d n ds p hj hn hd hp
    obtain ⟨dn, dd, dp, drl, drr, drk⟩ := d
    simp only [JsonData.name] at hn
    simp only [JsonData.description] at hd
    simp only [JsonData.permission] at hp
    subst hn
    subst hd
    subst hp
    unfold pymain
    rw [show (["add_command.py", "--json", s] : List String).getD 2 "" = s from rfl, hj]
    rfl
  · intro d hj hmiss
    obtain ⟨dn, dd, dp, drl, drr, drk⟩ := d
    unfold pymain
    rw [show (["add_command.py", "--json", s] : List String).getD 2 "" = s from rfl, hj]
    simp only [JsonData.name, JsonData.description, JsonData.permission] at hmiss
    rcases hmiss with h1 | h2 | h3
    · subst h1
      rfl
    · subst h2
      cases dn <;> rfl
    · subst h3
      cases dn with
      | none => rfl
      | some a => cases dd <;> rfl
  · intro hj
    unfold pymain
    rw [show (["add_command.py", "--json", s] : List String).getD 2 "" = s from rfl, hj]
    rfl

/-- Witness for C10: a full payload, a payload missing its name, and an
unparseable payload. -/
theorem pymain_json_mode_witness :
    pymain jparse0 ["add_command.py", "--json", "ok"] inp0 fsEmpty =
      { exitCode := 0
        output := [OutputItem.resultJson
          (add_command "curl" "Transfer data" "AlwaysAsk" "high" "Network access" fsEmpty).result]
        file :=
          (add_command "curl" "Transfer data" "AlwaysAsk" "high" "Network access" fsEmpty).file } ∧
    pymain jparse0 ["add_command.py", "--json", "missing"] inp0 fsEmpty =
      { exitCode := 1, output := [OutputItem.errParsingJson], file := fsEmpty.file } ∧
    pymain jparse0 ["add_command.py", "--json", "nope"] inp0 fsEmpty =
      { exitCode := 1, output := [OutputItem.errParsingJson], file := fsEmpty.file } := by
  refine ⟨?_, ?_, ?_⟩
  · exact ((pymain_json_mode jparse0 "ok" inp0 fsEmpty).1 d0 "curl" "Transfer data" "AlwaysAsk"
      rfl rfl rfl rfl).trans rfl
  · exact (pymain_json_mode jparse0 "missing" inp0 fsEmpty).2.1 dMissing rfl (Or.inl rfl)
  · exact (pymain_json_mode jparse0 "nope" inp0 fsEmpty).2.2 rfl

end AddCommand
